import Mathlib

/-!
Shallow embedding of the weather-station firmware (`src/weather_station.c`,
second revision of the file: the one with the bounded connection pool,
chunked sends and the structured `POST /cfg` handler).

Numeric model: the C code stores limits/offsets/readings in `float`, but the
configuration-update path performs only comparisons and assignments on these
values (no arithmetic), so the values are modelled as rationals `ℚ`: for every
representable float value the C comparisons agree with the rational ones.
Times (`absolute_time_t`) are microsecond timestamps, modelled as `Int`;
the C `int64_t` division in the sweep test truncates toward zero and is
modelled with `Int.tdiv`.
-/

namespace WeatherStation

/-- `config_limits_t` from the source: three (min,max) limit pairs plus
three additive offsets. -/
structure config_limits_t where
  temp_min : ℚ
  temp_max : ℚ
  hum_min : ℚ
  hum_max : ℚ
  press_min : ℚ
  press_max : ℚ
  temp_offset : ℚ
  hum_offset : ℚ
  press_offset : ℚ
deriving DecidableEq, Repr

/-- The compiled-in default configuration (`config` initializer in the source,
using `TEMP_MIN_DEFAULT` .. `PRESS_MAX_DEFAULT` and zero offsets). -/
def config_default : config_limits_t :=
  { temp_min := 15, temp_max := 30
    hum_min := 30, hum_max := 70
    press_min := 950, press_max := 1050
    temp_offset := 0, hum_offset := 0, press_offset := 0 }

/-- Per-dimension strict ordering invariant `min < max` (spec §3 ConfigLimits). -/
def ConfigInvariant (c : config_limits_t) : Prop :=
  c.temp_min < c.temp_max ∧ c.hum_min < c.hum_max ∧ c.press_min < c.press_max

instance (c : config_limits_t) : Decidable (ConfigInvariant c) := by
  unfold ConfigInvariant; infer_instance

/-- Outcome of `sscanf(value, "%f", &val)` on one `key=value` pair of the
`POST /cfg` body, together with the skip conditions of the parsing loop:
`missing` covers `!value || strlen(value) == 0` (the pair is skipped),
`nonNumeric` covers an sscanf failure (per-field error, processing
continues), `numeric` carries the parsed value. -/
inductive PairVal where
  | missing
  | nonNumeric (raw : String)
  | numeric (val : ℚ)
deriving DecidableEq

/-- One `key=value` pair as produced by the `strtok` loop over the body. -/
structure cfg_pair where
  key : String
  val : PairVal
deriving DecidableEq

/-- The nine configuration fields recognized by the `strcmp` chain of the
`POST /cfg` branch of `handle_http_request`. -/
inductive CfgField where
  | temp_min | temp_max | hum_min | hum_max
  | press_min | press_max
  | temp_offset | hum_offset | press_offset
deriving DecidableEq, Repr

/-- The `strcmp` chain of the handler, as a key lookup: the keys are compared
in the source's order; any other key falls through to the unknown-parameter
branch (`none`). -/
def parse_key (key : String) : Option CfgField :=
  if key = "temp_min" then some .temp_min
  else if key = "temp_max" then some .temp_max
  else if key = "hum_min" then some .hum_min
  else if key = "hum_max" then some .hum_max
  else if key = "press_min" then some .press_min
  else if key = "press_max" then some .press_max
  else if key = "temp_offset" then some .temp_offset
  else if key = "hum_offset" then some .hum_offset
  else if key = "press_offset" then some .press_offset
  else none

/-- Reason a numeric value was rejected for a field, mirroring the error
entries built in the handler: range-check failure, cross-field ordering
failure against the current opposite bound, or an unknown field name. -/
inductive RejectReason where
  | outOfRange
  | orderViolation (currentBound : ℚ)
  | unknownKey
deriving DecidableEq

/-- Error entries accumulated in the handler's `errors` JSON array:
`invalidValue` for a non-numeric value, `rejectedField` for a numeric value
rejected by the range/order/unknown-key checks. -/
inductive CfgError where
  | invalidValue (key raw : String)
  | rejectedField (key : String) (reason : RejectReason) (val : ℚ)
deriving DecidableEq

/-- Result of running one numeric value through the validation of one field. -/
inductive ApplyResult where
  | ok (c : config_limits_t)
  | reject (reason : RejectReason)
deriving DecidableEq

/-- The per-field validation and assignment of the handler: each limit field
is checked against its fixed plausible range (temperature [-50,50], humidity
[0,100], pressure [300,1100]) and then against the current opposite bound
(`val < config.X_max` for a minimum, `val > config.X_min` for a maximum);
offsets are checked against their ranges (temperature/humidity [-10,10],
pressure [-50,50]).  On success exactly that one field is assigned. -/
def apply_field (c : config_limits_t) (f : CfgField) (val : ℚ) : ApplyResult :=
  match f with
  | .temp_min =>
    if -50 ≤ val ∧ val ≤ 50 then
      if val < c.temp_max then .ok { c with temp_min := val }
      else .reject (.orderViolation c.temp_max)
    else .reject .outOfRange
  | .temp_max =>
    if -50 ≤ val ∧ val ≤ 50 then
      if c.temp_min < val then .ok { c with temp_max := val }
      else .reject (.orderViolation c.temp_min)
    else .reject .outOfRange
  | .hum_min =>
    if 0 ≤ val ∧ val ≤ 100 then
      if val < c.hum_max then .ok { c with hum_min := val }
      else .reject (.orderViolation c.hum_max)
    else .reject .outOfRange
  | .hum_max =>
    if 0 ≤ val ∧ val ≤ 100 then
      if c.hum_min < val then .ok { c with hum_max := val }
      else .reject (.orderViolation c.hum_min)
    else .reject .outOfRange
  | .press_min =>
    if 300 ≤ val ∧ val ≤ 1100 then
      if val < c.press_max then .ok { c with press_min := val }
      else .reject (.orderViolation c.press_max)
    else .reject .outOfRange
  | .press_max =>
    if 300 ≤ val ∧ val ≤ 1100 then
      if c.press_min < val then .ok { c with press_max := val }
      else .reject (.orderViolation c.press_min)
    else .reject .outOfRange
  | .temp_offset =>
    if -10 ≤ val ∧ val ≤ 10 then .ok { c with temp_offset := val }
    else .reject .outOfRange
  | .hum_offset =>
    if -10 ≤ val ∧ val ≤ 10 then .ok { c with hum_offset := val }
    else .reject .outOfRange
  | .press_offset =>
    if -50 ≤ val ∧ val ≤ 50 then .ok { c with press_offset := val }
    else .reject .outOfRange

/-- One parsed numeric `key=value` pair through the whole `strcmp` chain. -/
def apply_cfg_value (c : config_limits_t) (key : String) (val : ℚ) : ApplyResult :=
  match parse_key key with
  | some f => apply_field c f val
  | none => .reject .unknownKey

/-- The `strtok` processing loop of the `POST /cfg` branch: walks the pair
list in order, skips empty/malformed pairs, records one error entry for each
non-numeric value, and for numeric values applies or rejects the field,
threading the (incrementally mutated) configuration.  Returns the final
configuration, the `updates` list (field/value pairs applied, in order) and
the `errors` list (in order). -/
def process_cfg_pairs (c : config_limits_t) :
    List cfg_pair → config_limits_t × List (String × ℚ) × List CfgError
  | [] => (c, [], [])
  | p :: rest =>
    match p.val with
    | .missing => process_cfg_pairs c rest
    | .nonNumeric raw =>
      let (cf, us, es) := process_cfg_pairs c rest
      (cf, us, .invalidValue p.key raw :: es)
    | .numeric v =>
      match apply_cfg_value c p.key v with
      | .ok c' =>
        let (cf, us, es) := process_cfg_pairs c' rest
        (cf, (p.key, v) :: us, es)
      | .reject r =>
        let (cf, us, es) := process_cfg_pairs c rest
        (cf, us, .rejectedField p.key r v :: es)

/-- The structured `POST /cfg` response: HTTP status line code, overall
status flag (`"success"` vs `"error"`), whether the JSON object carries the
`updates`/`errors` arrays, and the entries the loop *records* for them (the
sequence of `strncat` append attempts).  The arrays the program actually
emits are these entries pushed through fixed 256-byte buffers with
truncating `strncat` — see `cat_entries_256` below — so the emitted arrays
coincide with these lists only while the serialization fits. -/
structure cfg_response where
  http_status : Nat
  success : Bool
  has_lists : Bool
  updates : List (String × ℚ)
  errors : List CfgError
deriving DecidableEq

/-- The `POST /cfg` branch of `handle_http_request`: `body = none` models a
request without the `\r\n\r\n` separator (400, status/message object with no
lists); otherwise if the 100 ms `mutex_config` acquisition succeeds the pair
list is processed and the status line is 200 exactly when `updated`
(something was applied), else the stored configuration is untouched and a
400 "error" response with empty lists is produced. -/
def handle_post_cfg (body : Option (List cfg_pair)) (mutex_ok : Bool)
    (c : config_limits_t) : config_limits_t × cfg_response :=
  match body with
  | none =>
    (c, { http_status := 400, success := false, has_lists := false,
          updates := [], errors := [] })
  | some pairs =>
    if mutex_ok then
      let (c', us, es) := process_cfg_pairs c pairs
      let updated := !us.isEmpty
      (c', { http_status := if updated then 200 else 400, success := updated,
             has_lists := true, updates := us, errors := es })
    else
      (c, { http_status := 400, success := false, has_lists := true,
            updates := [], errors := [] })

/-- The fixed plausible range of each field (temperature limits in [-50,50],
humidity limits in [0,100], pressure limits in [300,1100],
temperature/humidity offsets in [-10,10], pressure offset in [-50,50]). -/
def field_range (f : CfgField) (v : ℚ) : Prop :=
  match f with
  | .temp_min | .temp_max => -50 ≤ v ∧ v ≤ 50
  | .hum_min | .hum_max => 0 ≤ v ∧ v ≤ 100
  | .press_min | .press_max => 300 ≤ v ∧ v ≤ 1100
  | .temp_offset | .hum_offset => -10 ≤ v ∧ v ≤ 10
  | .press_offset => -50 ≤ v ∧ v ≤ 50

instance (f : CfgField) (v : ℚ) : Decidable (field_range f v) := by
  unfold field_range; cases f <;> infer_instance

lemma apply_field_ok_inv (c c' : config_limits_t) (f : CfgField) (v : ℚ)
    (h : apply_field c f v = .ok c') (hinv : ConfigInvariant c) :
    ConfigInvariant c' ∧ field_range f v := by
  obtain ⟨i1, i2, i3⟩ := hinv
  cases f <;> simp only [apply_field] at h <;> (repeat' split at h) <;>
    first
      | exact ApplyResult.noConfusion h
      | (injection h with h; subst h
         constructor <;> simp_all [ConfigInvariant, field_range])

lemma apply_cfg_value_ok_inv (c c' : config_limits_t) (key : String) (v : ℚ)
    (h : apply_cfg_value c key v = .ok c') (hinv : ConfigInvariant c) :
    ConfigInvariant c' ∧ ∃ f, parse_key key = some f ∧ field_range f v := by
  unfold apply_cfg_value at h
  cases hp : parse_key key with
  | none => rw [hp] at h; exact ApplyResult.noConfusion h
  | some f =>
    rw [hp] at h
    obtain ⟨hc, hr⟩ := apply_field_ok_inv c c' f v h hinv
    exact ⟨hc, f, rfl, hr⟩

/-- Processing a pair list preserves the per-dimension `min < max` invariant. -/
lemma process_cfg_pairs_invariant (pairs : List cfg_pair) :
    ∀ c : config_limits_t, ConfigInvariant c →
      ConfigInvariant (process_cfg_pairs c pairs).1 := by
  induction pairs with
  | nil => intro c h; simpa [process_cfg_pairs] using h
  | cons p rest ih =>
    intro c h
    cases hv : p.val with
    | missing => simpa [process_cfg_pairs, hv] using ih c h
    | nonNumeric raw => simpa [process_cfg_pairs, hv] using ih c h
    | numeric v =>
      cases ha : apply_cfg_value c p.key v with
      | ok c' =>
        have := (apply_cfg_value_ok_inv c c' p.key v ha h).1
        simpa [process_cfg_pairs, hv, ha] using ih c' this
      | reject r => simpa [process_cfg_pairs, hv, ha] using ih c h

/-- Every entry of the `updates` list names a known field and lies within
that field's fixed range. -/
lemma process_cfg_pairs_updates_range (pairs : List cfg_pair) :
    ∀ c : config_limits_t, ConfigInvariant c →
      ∀ u ∈ (process_cfg_pairs c pairs).2.1,
        ∃ f, parse_key u.1 = some f ∧ field_range f u.2 := by
  induction pairs with
  | nil => intro c _ u hu; simp [process_cfg_pairs] at hu
  | cons p rest ih =>
    intro c h u hu
    cases hv : p.val with
    | missing =>
      simp only [process_cfg_pairs, hv] at hu
      exact ih c h u hu
    | nonNumeric raw =>
      simp only [process_cfg_pairs, hv] at hu
      exact ih c h u hu
    | numeric v =>
      cases ha : apply_cfg_value c p.key v with
      | ok c' =>
        have hok := apply_cfg_value_ok_inv c c' p.key v ha h
        simp only [process_cfg_pairs, hv, ha, List.mem_cons] at hu
        rcases hu with hu | hu
        · subst hu; exact hok.2
        · exact ih c' hok.1 u hu
      | reject r =>
        simp only [process_cfg_pairs, hv, ha] at hu
        exact ih c h u hu

/-- `TCP_CHUNK_SIZE` from the source: at most this many body bytes are
handed to the transport per send. -/
def TCP_CHUNK_SIZE : Nat := 512

/-- The send-relevant part of `conn_state_t`: the `remaining_data` cursor
plus `remaining_len` (modelled as the remaining suffix of the body),
`response_sent`, and a flag recording that `close_connection` ran.  Elements
are an arbitrary type standing for bytes. -/
structure conn_send_state (α : Type) where
  remaining : List α
  response_sent : Bool
  closed : Bool

/-- `send_http_response`: writes the whole header, then at most
`TCP_CHUNK_SIZE` bytes of the body, keeping the rest as cursor+length in the
connection state (an empty body clears the cursor).  Returns the updated
state and the bytes handed to `tcp_write`.  The `tcp_write`/`tcp_output`
failure paths (which tear the connection down) are not modelled: the
transport is assumed to accept the write. -/
def send_http_response {α : Type} (header body : List α) (s : conn_send_state α) :
    conn_send_state α × List α :=
  if body.isEmpty then
    ({ s with remaining := [], response_sent := true }, header)
  else
    let to_send := if body.length > TCP_CHUNK_SIZE then TCP_CHUNK_SIZE else body.length
    ({ s with remaining := body.drop to_send, response_sent := true },
     header ++ body.take to_send)

/-- `webserver_sent`: on a send-complete notification, if bytes remain, the
next chunk of at most `TCP_CHUNK_SIZE` bytes is written and the cursor
advanced; otherwise `close_connection` tears the connection down. -/
def webserver_sent {α : Type} (s : conn_send_state α) : conn_send_state α × List α :=
  if 0 < s.remaining.length then
    let to_send :=
      if s.remaining.length > TCP_CHUNK_SIZE then TCP_CHUNK_SIZE else s.remaining.length
    ({ s with remaining := s.remaining.drop to_send }, s.remaining.take to_send)
  else
    ({ s with closed := true }, [])

/-- Iterates `webserver_sent` (one call per send-complete notification)
until the connection is closed, collecting the chunks handed to the
transport. -/
def drain_sent {α : Type} (s : conn_send_state α) : List (List α) × conn_send_state α :=
  if h : 0 < s.remaining.length then
    ((webserver_sent s).2 :: (drain_sent (webserver_sent s).1).1,
     (drain_sent (webserver_sent s).1).2)
  else
    ([], (webserver_sent s).1)
termination_by s.remaining.length
decreasing_by
  all_goals
    simp only [webserver_sent, if_pos h, List.length_drop]
    split <;> simp [TCP_CHUNK_SIZE] <;> omega

lemma drain_sent_spec {α : Type} :
    ∀ (n : Nat) (s : conn_send_state α), s.remaining.length ≤ n →
      (drain_sent s).1.flatten = s.remaining ∧
      (∀ ch ∈ (drain_sent s).1, 0 < ch.length ∧ ch.length ≤ TCP_CHUNK_SIZE) ∧
      (drain_sent s).2 = { s with remaining := ([] : List α), closed := true } := by
  intro n
  induction n with
  | zero =>
    intro s h
    have hnil : s.remaining = [] := List.length_eq_zero.mp (Nat.le_zero.mp h)
    rw [drain_sent]
    simp [hnil, webserver_sent]
  | succ n ih =>
    intro s h
    by_cases hpos : 0 < s.remaining.length
    · obtain ⟨t, ht⟩ :
        ∃ t, t = if s.remaining.length > TCP_CHUNK_SIZE then TCP_CHUNK_SIZE
                 else s.remaining.length := ⟨_, rfl⟩
      have hws1 : (webserver_sent s).1 = { s with remaining := s.remaining.drop t } := by
        simp [webserver_sent, hpos, ht]
      have hws2 : (webserver_sent s).2 = s.remaining.take t := by
        simp [webserver_sent, hpos, ht]
      have hchunk : TCP_CHUNK_SIZE = 512 := rfl
      have htpos : 0 < t := by
        rw [ht]; split <;> omega
      have htle : t ≤ TCP_CHUNK_SIZE := by
        rw [ht]; split <;> omega
      have htlen : t ≤ s.remaining.length := by
        rw [ht]; split <;> omega
      obtain ⟨hj, hb, hf⟩ := ih (webserver_sent s).1
        (by rw [hws1]; simp only [List.length_drop]; omega)
      rw [drain_sent, dif_pos hpos]
      dsimp only
      refine ⟨?_, ?_, ?_⟩
      · rw [List.flatten_cons, hj, hws1, hws2]
        dsimp only
        exact List.take_append_drop t s.remaining
      · intro ch hch
        rcases List.mem_cons.mp hch with hch | hch
        · subst hch
          rw [hws2]
          constructor
          · simp only [List.length_take]; omega
          · simp only [List.length_take]; omega
        · exact hb ch hch
      · rw [hf, hws1]
    · rw [drain_sent, dif_neg hpos]
      have hnil : s.remaining = [] :=
        List.length_eq_zero.mp (Nat.eq_zero_of_not_pos hpos)
      simp [webserver_sent, hnil]

/-- **C1.** For an HTTP response with a non-empty body, the initial
`send_http_response` hands the full header plus the first chunk of at most
`TCP_CHUNK_SIZE` (512) body bytes to the transport, keeping the remainder as
cursor+length in the connection state; each subsequent send-complete
notification (`webserver_sent`) hands off the next chunk of at most 512
bytes; the concatenation of all chunks handed over equals the body exactly;
and when the remaining length reaches zero the connection is torn down. -/
theorem claim_C1_chunked_send {α : Type} (header body : List α) (hb : body ≠ []) :
    (send_http_response header body ⟨[], false, false⟩).2
        = header ++ body.take TCP_CHUNK_SIZE ∧
    (body.take TCP_CHUNK_SIZE).length ≤ TCP_CHUNK_SIZE ∧
    (send_http_response header body ⟨[], false, false⟩).1.remaining
        = body.drop TCP_CHUNK_SIZE ∧
    (∀ ch ∈ (drain_sent (send_http_response header body ⟨[], false, false⟩).1).1,
      0 < ch.length ∧ ch.length ≤ TCP_CHUNK_SIZE) ∧
    (body.take TCP_CHUNK_SIZE
        :: (drain_sent (send_http_response header body ⟨[], false, false⟩).1).1).flatten
        = body ∧
    (drain_sent (send_http_response header body ⟨[], false, false⟩).1).2.closed
        = true := by
  have hne : body.isEmpty = false := by
    cases body with
    | nil => exact absurd rfl hb
    | cons a l => rfl
  have hsend1 : (send_http_response header body ⟨[], false, false⟩).1
      = ⟨body.drop (if body.length > TCP_CHUNK_SIZE then TCP_CHUNK_SIZE
                    else body.length), true, false⟩ := by
    simp [send_http_response, hne]
  have hsend2 : (send_http_response header body ⟨[], false, false⟩).2
      = header ++ body.take (if body.length > TCP_CHUNK_SIZE then TCP_CHUNK_SIZE
                             else body.length) := by
    simp [send_http_response, hne]
  have htake : body.take (if body.length > TCP_CHUNK_SIZE then TCP_CHUNK_SIZE
                          else body.length) = body.take TCP_CHUNK_SIZE := by
    split
    · rfl
    · rw [List.take_length, List.take_of_length_le (by omega)]
  have hdrop : body.drop (if body.length > TCP_CHUNK_SIZE then TCP_CHUNK_SIZE
                          else body.length) = body.drop TCP_CHUNK_SIZE := by
    split
    · rfl
    · rw [List.drop_length, List.drop_eq_nil_of_le (by omega)]
  obtain ⟨hj, hbnd, hf⟩ := drain_sent_spec
    ((send_http_response header body ⟨[], false, false⟩).1.remaining.length)
    (send_http_response header body ⟨[], false, false⟩).1 le_rfl
  refine ⟨by rw [hsend2, htake], by simp [List.length_take], ?_, hbnd, ?_, ?_⟩
  · rw [hsend1]; simpa using hdrop
  · have : (send_http_response header body ⟨[], false, false⟩).1.remaining
        = body.drop TCP_CHUNK_SIZE := by rw [hsend1]; simpa using hdrop
    rw [List.flatten_cons, hj, this]
    exact List.take_append_drop TCP_CHUNK_SIZE body
  · rw [hf]

/-- Witness for C1 on a concrete two-byte header and one-byte body. -/
theorem claim_C1_chunked_send_witness :
    ([3] : List Nat) ≠ [] ∧
    (send_http_response [1, 2] [3] ⟨[], false, false⟩).2
      = [1, 2] ++ ([3] : List Nat).take TCP_CHUNK_SIZE := by
  exact ⟨by decide, (claim_C1_chunked_send [1, 2] [3] (by decide)).1⟩

/-- `TCP_TIMEOUT_MS` from the source: idle timeout for connections, in
milliseconds. -/
def TCP_TIMEOUT_MS : Int := 10000

/-- `make_timeout_time_ms` (pico-sdk): the absolute time `ms` milliseconds
from `now`, in microseconds.  Used at accept and at every receive to set the
connection's idle-deadline. -/
def make_timeout_time_ms (now ms : Int) : Int := now + ms * 1000

/-- The per-slot test of `tarefa_timeout`:
`absolute_time_diff_us(get_absolute_time(), state->timeout) / 1000 > TCP_TIMEOUT_MS`.
`absolute_time_diff_us(from, to)` is `to - from`, so the tested quantity is
`(deadline - now) / 1000` with C `int64_t` division (truncation toward
zero, `Int.tdiv`). -/
def sweep_closes (now deadline : Int) : Bool :=
  decide (Int.tdiv (deadline - now) 1000 > TCP_TIMEOUT_MS)

/-- One 1-second iteration of `tarefa_timeout` over the connection pool
(slots hold the idle-deadline of an occupied connection): a slot whose test
fires is closed (`close_connection`) and set to `NULL`. -/
def tarefa_timeout_pass (now : Int) (pool : List (Option Int)) : List (Option Int) :=
  pool.map fun s =>
    match s with
    | none => none
    | some dl => if sweep_closes now dl then none else some dl

/-- **C3 (code bug).** The sweep test is inverted: it fires only when the
deadline lies more than `TCP_TIMEOUT_MS` in the *future*, so a connection
whose idle-deadline has passed (`deadline ≤ now`) is never torn down — the
sweep never closes any slot whose deadline was set at most 10 s ahead.
Concretely, a slot whose deadline (15 000 000 µs) passed 5 s ago survives
the sweep at `now = 20 000 000 µs` untouched, contradicting the claim (and
the code's own `[TIMEOUT] Fechando conexão inativa` log and the
`TCP_TIMEOUT_MS` naming). -/
theorem claim_C3_idle_sweep_bug :
    (∀ now deadline : Int, deadline ≤ now → sweep_closes now deadline = false) ∧
    tarefa_timeout_pass 20000000 [some 15000000, none, none, none]
      = [some 15000000, none, none, none] := by
  constructor
  · intro now dl h
    have h1 : (0 : Int) ≤ -(dl - now) := by omega
    have h2 : (0 : Int) ≤ Int.tdiv (-(dl - now)) 1000 :=
      Int.tdiv_nonneg h1 (by norm_num)
    have h3 : Int.tdiv (dl - now) 1000 = -(Int.tdiv (-(dl - now)) 1000) := by
      rw [← Int.neg_tdiv, Int.neg_neg]
    simp only [sweep_closes, decide_eq_false_iff_not, not_lt, TCP_TIMEOUT_MS]
    omega
  · decide

/-- Witness for C3's universal part at the failing input. -/
theorem claim_C3_idle_sweep_bug_witness :
    ((15000000 : Int) ≤ 20000000) ∧ sweep_closes 20000000 15000000 = false := by
  exact ⟨by decide, claim_C3_idle_sweep_bug.1 20000000 15000000 (by decide)⟩

/-- Assignment of a single configuration field (the `config.X = val`
statements of the handler). -/
def set_field (c : config_limits_t) (f : CfgField) (v : ℚ) : config_limits_t :=
  match f with
  | .temp_min => { c with temp_min := v }
  | .temp_max => { c with temp_max := v }
  | .hum_min => { c with hum_min := v }
  | .hum_max => { c with hum_max := v }
  | .press_min => { c with press_min := v }
  | .press_max => { c with press_max := v }
  | .temp_offset => { c with temp_offset := v }
  | .hum_offset => { c with hum_offset := v }
  | .press_offset => { c with press_offset := v }

/-- A successful application assigns exactly the targeted field. -/
lemma apply_field_ok_set (c cc : config_limits_t) (f : CfgField) (v : ℚ)
    (h : apply_field c f v = .ok cc) : cc = set_field c f v := by
  cases f <;> simp only [apply_field] at h <;> (repeat' split at h) <;>
    first
      | exact ApplyResult.noConfusion h
      | (injection h with h; subst h; rfl)

/-- Every non-skipped pair contributes exactly one entry, to `updates` or to
`errors`. -/
lemma process_cfg_pairs_count (pairs : List cfg_pair) :
    ∀ c : config_limits_t,
      (process_cfg_pairs c pairs).2.1.length + (process_cfg_pairs c pairs).2.2.length
        = (pairs.filter (fun p => p.val != PairVal.missing)).length := by
  induction pairs with
  | nil => intro c; simp [process_cfg_pairs]
  | cons p rest ih =>
    intro c
    cases hv : p.val with
    | missing => simpa [process_cfg_pairs, hv] using ih c
    | nonNumeric raw =>
      rcases hQ : process_cfg_pairs c rest with ⟨cf, us, es⟩
      have hrec := ih c
      rw [hQ] at hrec
      simp only [Prod.snd, Prod.fst] at hrec
      simp only [process_cfg_pairs, hv, hQ]
      simp [List.filter_cons, hv]
      omega
    | numeric v =>
      cases ha : apply_cfg_value c p.key v with
      | ok c' =>
        rcases hQ : process_cfg_pairs c' rest with ⟨cf, us, es⟩
        have hrec := ih c'
        rw [hQ] at hrec
        simp only [Prod.snd, Prod.fst] at hrec
        simp only [process_cfg_pairs, hv, ha, hQ]
        simp [List.filter_cons, hv]
        omega
      | reject r =>
        rcases hQ : process_cfg_pairs c rest with ⟨cf, us, es⟩
        have hrec := ih c
        rw [hQ] at hrec
        simp only [Prod.snd, Prod.fst] at hrec
        simp only [process_cfg_pairs, hv, ha, hQ]
        simp [List.filter_cons, hv]
        omega

/-- A non-numeric value always shows up as an `invalidValue` entry of the
`errors` list (processing continues past it). -/
lemma process_cfg_pairs_errors_nonNumeric (pairs : List cfg_pair) :
    ∀ (c : config_limits_t) (p : cfg_pair) (raw : String), p ∈ pairs →
      p.val = .nonNumeric raw →
      CfgError.invalidValue p.key raw ∈ (process_cfg_pairs c pairs).2.2 := by
  induction pairs with
  | nil => intro c p raw hp; simp at hp
  | cons q rest ih =>
    intro c p raw hp hval
    rcases List.mem_cons.mp hp with hp | hp
    · subst hp
      simp [process_cfg_pairs, hval]
    · cases hv : q.val with
      | missing => simpa [process_cfg_pairs, hv] using ih c p raw hp hval
      | nonNumeric raw' =>
        simp only [process_cfg_pairs, hv, List.mem_cons]
        exact Or.inr (ih c p raw hp hval)
      | numeric v =>
        cases ha : apply_cfg_value c q.key v with
        | ok c' => simpa [process_cfg_pairs, hv, ha] using ih c' p raw hp hval
        | reject r =>
          simp only [process_cfg_pairs, hv, ha, List.mem_cons]
          exact Or.inr (ih c p raw hp hval)

/-- An unknown field name with a numeric value always shows up as an
`unknownKey` entry of the `errors` list. -/
lemma process_cfg_pairs_errors_unknown (pairs : List cfg_pair) :
    ∀ (c : config_limits_t) (p : cfg_pair) (v : ℚ), p ∈ pairs →
      p.val = .numeric v → parse_key p.key = none →
      CfgError.rejectedField p.key .unknownKey v ∈ (process_cfg_pairs c pairs).2.2 := by
  induction pairs with
  | nil => intro c p v hp; simp at hp
  | cons q rest ih =>
    intro c p v hp hval hkey
    rcases List.mem_cons.mp hp with hp | hp
    · subst hp
      simp [process_cfg_pairs, hval, apply_cfg_value, hkey]
    · cases hv : q.val with
      | missing => simpa [process_cfg_pairs, hv] using ih c p v hp hval hkey
      | nonNumeric raw' =>
        simp only [process_cfg_pairs, hv, List.mem_cons]
        exact Or.inr (ih c p v hp hval hkey)
      | numeric w =>
        cases ha : apply_cfg_value c q.key w with
        | ok c' => simpa [process_cfg_pairs, hv, ha] using ih c' p v hp hval hkey
        | reject r =>
          simp only [process_cfg_pairs, hv, ha, List.mem_cons]
          exact Or.inr (ih c p v hp hval hkey)

/-- If no pair was applied the configuration comes out untouched. -/
lemma process_cfg_pairs_no_update (pairs : List cfg_pair) :
    ∀ c : config_limits_t, (process_cfg_pairs c pairs).2.1 = [] →
      (process_cfg_pairs c pairs).1 = c := by
  induction pairs with
  | nil => intro c _; rfl
  | cons p rest ih =>
    intro c h
    cases hv : p.val with
    | missing =>
      simp only [process_cfg_pairs, hv] at h ⊢
      exact ih c h
    | nonNumeric raw =>
      simp only [process_cfg_pairs, hv] at h ⊢
      exact ih c h
    | numeric v =>
      cases ha : apply_cfg_value c p.key v with
      | ok c' =>
        simp only [process_cfg_pairs, hv, ha] at h
        exact absurd h (List.cons_ne_nil _ _)
      | reject r =>
        simp only [process_cfg_pairs, hv, ha] at h ⊢
        exact ih c h

/-- **C2.** For every `POST /cfg` request, assuming `min < max` holds
strictly for the three dimensions before the request, after processing
`min < max` still holds strictly for every dimension; every field reported
as applied names a known field and lies within its fixed plausible range;
and a minimum is applied exactly when it is in range and strictly below the
current maximum (symmetrically for a maximum), the successful application
assigning only that one field. -/
theorem claim_C2_config_invariant (c : config_limits_t) (pairs : List cfg_pair)
    (hinv : ConfigInvariant c) :
    ConfigInvariant (process_cfg_pairs c pairs).1 ∧
    (∀ u ∈ (process_cfg_pairs c pairs).2.1,
      ∃ f, parse_key u.1 = some f ∧ field_range f u.2) ∧
    (∀ v : ℚ,
      ((∃ cc, apply_field c .temp_min v = .ok cc) ↔ -50 ≤ v ∧ v ≤ 50 ∧ v < c.temp_max) ∧
      ((∃ cc, apply_field c .temp_max v = .ok cc) ↔ -50 ≤ v ∧ v ≤ 50 ∧ c.temp_min < v) ∧
      ((∃ cc, apply_field c .hum_min v = .ok cc) ↔ 0 ≤ v ∧ v ≤ 100 ∧ v < c.hum_max) ∧
      ((∃ cc, apply_field c .hum_max v = .ok cc) ↔ 0 ≤ v ∧ v ≤ 100 ∧ c.hum_min < v) ∧
      ((∃ cc, apply_field c .press_min v = .ok cc) ↔ 300 ≤ v ∧ v ≤ 1100 ∧ v < c.press_max) ∧
      ((∃ cc, apply_field c .press_max v = .ok cc) ↔ 300 ≤ v ∧ v ≤ 1100 ∧ c.press_min < v)) ∧
    (∀ (f : CfgField) (v : ℚ) (cc : config_limits_t),
      apply_field c f v = .ok cc → cc = set_field c f v) := by
  refine ⟨process_cfg_pairs_invariant pairs c hinv,
    process_cfg_pairs_updates_range pairs c hinv, ?_,
    fun f v cc => apply_field_ok_set c cc f v⟩
  intro v
  refine ⟨?_, ?_, ?_, ?_, ?_, ?_⟩ <;>
    · constructor
      · rintro ⟨cc, hcc⟩
        simp only [apply_field] at hcc
        repeat' split at hcc
        all_goals first
          | exact ApplyResult.noConfusion hcc
          | simp_all
      · rintro ⟨h1, h2, h3⟩
        simp only [apply_field]
        rw [if_pos (And.intro h1 h2), if_pos h3]
        exact ⟨_, rfl⟩

/-- Witness for C2 at the default configuration with one in-range pair. -/
theorem claim_C2_config_invariant_witness :
    ConfigInvariant config_default ∧
    ConfigInvariant
      (process_cfg_pairs config_default
        [⟨"temp_min", PairVal.numeric 20⟩]).1 := by
  refine ⟨by decide, ?_⟩
  exact (claim_C2_config_invariant config_default
    [⟨"temp_min", PairVal.numeric 20⟩] (by decide)).1

/-!
Byte-level model of the response's `updates[256]`/`errors[256]` buffers.
The abstract `updates`/`errors` lists of `cfg_response` are the entries the
loop *records* (the sequence of `strncat` append attempts); the arrays the
response actually carries are those entries serialized through the
fixed-size buffers below.  Bytes are modelled as `Nat` (C `char` values);
each entry is first capped at 63 bytes by `snprintf(err_buf, 64, …)` /
`snprintf(upd_buf, 64, …)`, then appended with
`strncat(buf, entry, sizeof(buf) - strlen(buf) - 1)` into a 256-byte buffer
initialized to `"["`, comma-separated, closed with a final `strncat` of
`"]"`.
-/

/-- Bytes of an ASCII string, one byte per character (used only for ASCII
keys and values). -/
def ascii_bytes (s : String) : List Nat := s.toList.map Char.toNat

/-- The bytes of the format fragment before the key in
`"{\"field\":\"%s\",\"error\":\"Valor inválido: %s\"}"`, i.e. `{"field":"`. -/
def err_invalid_open : List Nat :=
  [123, 34, 102, 105, 101, 108, 100, 34, 58, 34]

/-- The bytes between key and raw value: `","error":"Valor inválido: `
(`á` is the two UTF-8 bytes 195, 161). -/
def err_invalid_mid : List Nat :=
  [34, 44, 34, 101, 114, 114, 111, 114, 34, 58, 34,
   86, 97, 108, 111, 114, 32, 105, 110, 118, 195, 161, 108, 105, 100, 111,
   58, 32]

/-- The closing bytes `"}` of the invalid-value entry. -/
def err_invalid_suffix : List Nat := [34, 125]

/-- `snprintf(err_buf, sizeof(err_buf), "{\"field\":\"%s\",\"error\":\"Valor
inválido: %s\"}", key, value)`: the entry for a non-numeric value, silently
capped at 63 bytes (`err_buf` is 64 bytes including the terminator). -/
def err_invalid_entry (key raw : List Nat) : List Nat :=
  (err_invalid_open ++ key ++ err_invalid_mid ++ raw ++ err_invalid_suffix).take 63

/-- Serialization of a recorded error entry, defined for the
`invalidValue` kind (a `rejectedField` entry additionally goes through
`%.1f` float formatting, which is not modelled). -/
def serialize_invalid_error : CfgError → Option (List Nat)
  | .invalidValue key raw =>
    some (err_invalid_entry (ascii_bytes key) (ascii_bytes raw))
  | .rejectedField _ _ _ => none

/-- `strncat(dst, src, size - strlen(dst) - 1)`: appends at most
`size - strlen(dst) - 1` bytes of `src` to `dst`, silently truncating; the
buffer content never exceeds `size - 1` bytes. -/
def strncat_append (size : Nat) (dst src : List Nat) : List Nat :=
  dst ++ src.take (size - dst.length - 1)

/-- The entry-accumulation loop over one of the two 256-byte buffers: a
comma is appended before every entry except the first
(`if (!first) strncat(buf, ",", …); strncat(buf, entry, …)`). -/
def cat_entries_aux (buf : List Nat) (first : Bool) :
    List (List Nat) → List Nat
  | [] => buf
  | e :: rest =>
    cat_entries_aux
      (strncat_append 256 (if first then buf else strncat_append 256 buf [44]) e)
      false rest

/-- The full buffer for one array: starts at `"["` (byte 91), accumulates
the entries, and closes with `strncat(buf, "]", …)` (byte 93). -/
def cat_entries_256 (entries : List (List Nat)) : List Nat :=
  strncat_append 256 (cat_entries_aux [91] true entries) [93]

/-- The comma-prefixed serialization `,e1,e2,…` of a list of entries. -/
def comma_prefixed : List (List Nat) → List Nat
  | [] => []
  | e :: rest => (44 :: e) ++ comma_prefixed rest

/-- The comma-separated serialization `e1,e2,…` of a list of entries. -/
def serialized_entries : List (List Nat) → List Nat
  | [] => []
  | e :: rest => e ++ comma_prefixed rest

/-- What the array serialization would be with unbounded buffers:
`[e1,e2,…]`. -/
def cat_entries_unbounded (entries : List (List Nat)) : List Nat :=
  [91] ++ serialized_entries entries ++ [93]

lemma strncat_append_length_le (size : Nat) (dst src : List Nat)
    (h : dst.length ≤ size - 1) :
    (strncat_append size dst src).length ≤ size - 1 := by
  simp only [strncat_append, List.length_append, List.length_take]
  omega

lemma strncat_append_of_fits (size : Nat) (dst src : List Nat)
    (h : dst.length + src.length ≤ size - 1) :
    strncat_append size dst src = dst ++ src := by
  unfold strncat_append
  rw [List.take_of_length_le (by omega)]

lemma cat_entries_aux_length_le :
    ∀ (entries : List (List Nat)) (buf : List Nat) (first : Bool),
      buf.length ≤ 255 → (cat_entries_aux buf first entries).length ≤ 255 := by
  intro entries
  induction entries with
  | nil => intro buf first h; exact h
  | cons e rest ih =>
    intro buf first h
    simp only [cat_entries_aux]
    apply ih
    have hin : (if first then buf
        else strncat_append 256 buf [44]).length ≤ 255 := by
      cases first with
      | true => simpa using h
      | false => simpa using strncat_append_length_le 256 buf [44] (by omega)
    simpa using strncat_append_length_le 256 _ e (by omega)

/-- The buffer content never exceeds 255 bytes, whatever the entries. -/
lemma cat_entries_256_length_le (entries : List (List Nat)) :
    (cat_entries_256 entries).length ≤ 255 := by
  unfold cat_entries_256
  have h := cat_entries_aux_length_le entries [91] true (by simp)
  simpa using strncat_append_length_le 256 _ [93] (by omega)

lemma cat_entries_aux_false_of_fits :
    ∀ (entries : List (List Nat)) (buf : List Nat),
      buf.length + (comma_prefixed entries).length ≤ 255 →
      cat_entries_aux buf false entries = buf ++ comma_prefixed entries := by
  intro entries
  induction entries with
  | nil => intro buf _; simp [cat_entries_aux, comma_prefixed]
  | cons e rest ih =>
    intro buf h
    have hlen : (comma_prefixed (e :: rest)).length
        = 1 + e.length + (comma_prefixed rest).length := by
      simp [comma_prefixed]
      omega
    rw [hlen] at h
    have h1 : strncat_append 256 buf [44] = buf ++ [44] :=
      strncat_append_of_fits 256 buf [44] (by simp; omega)
    have h2 : strncat_append 256 (buf ++ [44]) e = buf ++ [44] ++ e :=
      strncat_append_of_fits 256 (buf ++ [44]) e (by simp; omega)
    simp only [cat_entries_aux, if_neg (by simp : ¬ (false : Bool) = true)]
    rw [h1, h2, ih (buf ++ [44] ++ e) (by simp; omega)]
    simp [comma_prefixed, List.append_assoc]

lemma cat_entries_aux_true_of_fits (entries : List (List Nat)) (buf : List Nat)
    (h : buf.length + (serialized_entries entries).length ≤ 255) :
    cat_entries_aux buf true entries = buf ++ serialized_entries entries := by
  cases entries with
  | nil => simp [cat_entries_aux, serialized_entries]
  | cons e rest =>
    have hlen : (serialized_entries (e :: rest)).length
        = e.length + (comma_prefixed rest).length := by
      simp [serialized_entries]
    rw [hlen] at h
    have h1 : strncat_append 256 buf e = buf ++ e :=
      strncat_append_of_fits 256 buf e (by omega)
    have hstep : cat_entries_aux buf true (e :: rest)
        = cat_entries_aux (strncat_append 256 buf e) false rest := rfl
    rw [hstep, h1, cat_entries_aux_false_of_fits rest (buf ++ e) (by simp; omega)]
    simp [serialized_entries, List.append_assoc]

/-- When the whole serialized array fits the buffer, nothing is lost. -/
lemma cat_entries_256_of_fits (entries : List (List Nat))
    (h : (cat_entries_unbounded entries).length ≤ 255) :
    cat_entries_256 entries = cat_entries_unbounded entries := by
  have hlen : (cat_entries_unbounded entries).length
      = 1 + (serialized_entries entries).length + 1 := by
    simp [cat_entries_unbounded]
    omega
  rw [hlen] at h
  unfold cat_entries_256
  rw [cat_entries_aux_true_of_fits entries [91] (by simp; omega),
    strncat_append_of_fits 256 _ [93] (by simp; omega)]
  simp [cat_entries_unbounded, List.append_assoc]

/-- A request of five non-numeric pairs with 20-byte keys (about 120 bytes
of body, far below `MAX_REQUEST_SIZE`). -/
def cfg5_keys : List String :=
  ["kkkkkkkkkkkkkkkkkkk1", "kkkkkkkkkkkkkkkkkkk2", "kkkkkkkkkkkkkkkkkkk3",
   "kkkkkkkkkkkkkkkkkkk4", "kkkkkkkkkkkkkkkkkkk5"]

def cfg5_request : List cfg_pair :=
  cfg5_keys.map fun k => ⟨k, PairVal.nonNumeric "xxx"⟩

/-- The five 63-byte error entries the loop records for `cfg5_request`. -/
def cfg5_entries : List (List Nat) :=
  cfg5_keys.map fun k => err_invalid_entry (ascii_bytes k) (ascii_bytes "xxx")

set_option maxRecDepth 100000 in
/-- **C5 (counterexample).** The response does not carry the list of
field/error pairs: for a five-pair all-non-numeric request the loop records
five per-field `invalidValue` errors (each serializing to a 63-byte entry,
321 bytes of array in total), but the 256-byte `errors` buffer retains only
255 bytes — the fifth entry is absent from the emitted array and even the
closing `]` is dropped. -/
theorem claim_C5_counterexample :
    ((process_cfg_pairs config_default cfg5_request).2.2.map
        serialize_invalid_error = cfg5_entries.map some) ∧
    (process_cfg_pairs config_default cfg5_request).2.1 = [] ∧
    (cat_entries_unbounded cfg5_entries).length = 321 ∧
    (cat_entries_256 cfg5_entries).length = 255 ∧
    ¬ List.IsInfix (err_invalid_entry (ascii_bytes "kkkkkkkkkkkkkkkkkkk5")
        (ascii_bytes "xxx")) (cat_entries_256 cfg5_entries) ∧
    (cat_entries_256 cfg5_entries).getLast? ≠ some 93 := by
  refine ⟨by decide, by decide, by decide, by decide, by decide, by decide⟩

/-- **C5 (amended).** For every `POST /cfg` request with its header/body
separator present: the overall status is success iff at least one field was
applied, and the HTTP status line is 200 iff anything was applied, else
400; the loop records one update or error entry per non-skipped pair
(non-numeric values and unknown field names producing per-field errors
while processing continues); but the arrays the response carries are those
entries serialized through fixed 256-byte buffers with truncating
`strncat`, each entry first capped at 63 bytes by `snprintf`, so the
emitted array equals the recorded entries exactly when the serialization
fits in 255 bytes, never exceeds 255 bytes, and otherwise silently loses
later entries. -/
theorem claim_C5_cfg_response_amended (pairs : List cfg_pair) (mutex_ok : Bool)
    (c : config_limits_t) (r : cfg_response)
    (hr : r = (handle_post_cfg (some pairs) mutex_ok c).2) :
    (r.success = true ↔ r.updates ≠ []) ∧
    (r.http_status = 200 ↔ r.updates ≠ []) ∧
    (r.http_status = 200 ∨ r.http_status = 400) ∧
    r.has_lists = true ∧
    (mutex_ok = true →
      r.updates.length + r.errors.length
        = (pairs.filter (fun p => p.val != PairVal.missing)).length) ∧
    (mutex_ok = true → ∀ p ∈ pairs,
      (∀ raw, p.val = .nonNumeric raw →
        CfgError.invalidValue p.key raw ∈ r.errors) ∧
      (∀ v, p.val = .numeric v → parse_key p.key = none →
        CfgError.rejectedField p.key .unknownKey v ∈ r.errors)) ∧
    (∀ key raw : List Nat, (err_invalid_entry key raw).length ≤ 63) ∧
    (∀ entries : List (List Nat), (cat_entries_256 entries).length ≤ 255) ∧
    (∀ entries : List (List Nat),
      (cat_entries_unbounded entries).length ≤ 255 →
      cat_entries_256 entries = cat_entries_unbounded entries) := by
  subst hr
  have hbytes :
      (∀ key raw : List Nat, (err_invalid_entry key raw).length ≤ 63) ∧
      (∀ entries : List (List Nat), (cat_entries_256 entries).length ≤ 255) ∧
      (∀ entries : List (List Nat),
        (cat_entries_unbounded entries).length ≤ 255 →
        cat_entries_256 entries = cat_entries_unbounded entries) :=
    ⟨fun key raw => by simp [err_invalid_entry],
     cat_entries_256_length_le, cat_entries_256_of_fits⟩
  cases mutex_ok with
  | false =>
    refine ⟨by simp [handle_post_cfg], by simp [handle_post_cfg],
      by simp [handle_post_cfg], by simp [handle_post_cfg],
      by simp, by simp, hbytes.1, hbytes.2.1, hbytes.2.2⟩
  | true =>
    rcases hP : process_cfg_pairs c pairs with ⟨c', us, es⟩
    have hcount := process_cfg_pairs_count pairs c
    have hnn := process_cfg_pairs_errors_nonNumeric pairs c
    have hun := process_cfg_pairs_errors_unknown pairs c
    rw [hP] at hcount hnn hun
    simp only [handle_post_cfg, hP]
    cases us with
    | nil =>
      refine ⟨by simp, by simp, by simp, by simp,
        fun _ => by simpa using hcount, ?_, hbytes.1, hbytes.2.1, hbytes.2.2⟩
      intro _ p hp
      exact ⟨fun raw hraw => hnn p raw hp hraw,
        fun v hv hk => hun p v hp hv hk⟩
    | cons u us' =>
      refine ⟨by simp, by simp, by simp, by simp,
        fun _ => by simpa using hcount, ?_, hbytes.1, hbytes.2.1, hbytes.2.2⟩
      intro _ p hp
      exact ⟨fun raw hraw => hnn p raw hp hraw,
        fun v hv hk => hun p v hp hv hk⟩

/-- Witness for C5's amended statement: one applied field and one unknown
field, plus a fitting one-entry array serialized without loss. -/
theorem claim_C5_cfg_response_amended_witness :
    ((handle_post_cfg (some [⟨"temp_min", PairVal.numeric 20⟩,
        ⟨"bogus", PairVal.numeric 1⟩]) true config_default).2.http_status = 200 ↔
      (handle_post_cfg (some [⟨"temp_min", PairVal.numeric 20⟩,
        ⟨"bogus", PairVal.numeric 1⟩]) true config_default).2.updates ≠ []) ∧
    (handle_post_cfg (some [⟨"temp_min", PairVal.numeric 20⟩,
        ⟨"bogus", PairVal.numeric 1⟩]) true config_default).2.has_lists = true ∧
    ((cat_entries_unbounded [[100]]).length ≤ 255 ∧
      cat_entries_256 [[100]] = cat_entries_unbounded [[100]]) := by
  have h := claim_C5_cfg_response_amended
    [⟨"temp_min", PairVal.numeric 20⟩, ⟨"bogus", PairVal.numeric 1⟩]
    true config_default _ rfl
  exact ⟨h.2.1, h.2.2.2.1, by decide, h.2.2.2.2.2.2.2.2 [[100]] (by decide)⟩

/-- **C10.** For every `POST /cfg` request in which no field is applied —
including a missing body and the case where the configuration mutex cannot
be acquired within the 100 ms bounded wait — the stored configuration is
left entirely unchanged (no partial write), and the response reports status
error with HTTP status 400. -/
theorem claim_C10_no_partial_write (body : Option (List cfg_pair))
    (mutex_ok : Bool) (c : config_limits_t)
    (h : (handle_post_cfg body mutex_ok c).2.updates = []) :
    (handle_post_cfg body mutex_ok c).1 = c ∧
    (handle_post_cfg body mutex_ok c).2.success = false ∧
    (handle_post_cfg body mutex_ok c).2.http_status = 400 := by
  cases body with
  | none => simp [handle_post_cfg]
  | some pairs =>
    cases mutex_ok with
    | false => simp [handle_post_cfg]
    | true =>
      rcases hP : process_cfg_pairs c pairs with ⟨c', us, es⟩
      have hno := process_cfg_pairs_no_update pairs c
      rw [hP] at hno
      simp only [handle_post_cfg, hP] at h ⊢
      cases us with
      | nil => simpa using hno rfl
      | cons u us' => simp at h

/-- Witness for C10: an all-error request (value out of range). -/
theorem claim_C10_no_partial_write_witness :
    (handle_post_cfg (some [⟨"temp_min", PairVal.numeric 60⟩]) true
        config_default).2.updates = [] ∧
    (handle_post_cfg (some [⟨"temp_min", PairVal.numeric 60⟩]) true
        config_default).1 = config_default := by
  refine ⟨by decide, ?_⟩
  exact (claim_C10_no_partial_write
    (some [⟨"temp_min", PairVal.numeric 60⟩]) true config_default (by decide)).1

/-- The resources of one connection as acted on by `close_connection`.
`state_null`/`pcb_null` are the two guard tests (`state == NULL`,
`state->pcb == NULL`); `in_pool` says some `active_connections` slot still
holds this state; the counters record how many times the callbacks were
unregistered, `tcp_close(state->pcb)` ran and `free(state)` ran.
`close_connection` never writes `state->pcb = NULL`, and C cannot null the
caller's pointer, so the guard fields are left untouched by a call. -/
structure close_world where
  state_null : Bool
  pcb_null : Bool
  in_pool : Bool
  cb_unregistered_count : Nat
  pcb_close_count : Nat
  free_count : Nat
deriving DecidableEq, Repr

/-- `close_connection` from the source: returns immediately when the state
pointer or its pcb field is NULL; otherwise clears the matching pool slot,
unregisters the four callbacks, closes the pcb and frees the state. -/
def close_connection (w : close_world) : close_world :=
  if w.state_null || w.pcb_null then w
  else
    { w with
      in_pool := false
      cb_unregistered_count := w.cb_unregistered_count + 1
      pcb_close_count := w.pcb_close_count + 1
      free_count := w.free_count + 1 }

/-- **C4 (counterexample).** Invoking `close_connection` a second time on a
live connection record is not a no-op: because the function clears neither
the caller's pointer nor the record's pcb field, the second call passes the
guard and releases the transport handle and the state again (both counters
reach 2), contradicting "each released exactly once". -/
theorem claim_C4_counterexample :
    close_connection (close_connection ⟨false, false, true, 0, 0, 0⟩)
        ≠ close_connection ⟨false, false, true, 0, 0, 0⟩ ∧
    (close_connection (close_connection ⟨false, false, true, 0, 0, 0⟩)).free_count = 2 ∧
    (close_connection (close_connection ⟨false, false, true, 0, 0, 0⟩)).pcb_close_count
      = 2 := by
  decide

/-- **C4 (amended).** `close_connection` is a no-op only when the state
pointer or its `pcb` field is NULL; on a live connection it releases the
pool slot, the callbacks, the transport handle and the state, but since
nothing clears the guard fields, a second invocation on the same record
repeats the teardown: callbacks, transport handle and state are each
released twice (the pool slot alone stays cleared). -/
theorem claim_C4_teardown_amended (w : close_world) :
    ((w.state_null = true ∨ w.pcb_null = true) → close_connection w = w) ∧
    (w.state_null = false → w.pcb_null = false →
      (close_connection w).in_pool = false ∧
      (close_connection (close_connection w)).in_pool = false ∧
      (close_connection (close_connection w)).free_count = w.free_count + 2 ∧
      (close_connection (close_connection w)).pcb_close_count
        = w.pcb_close_count + 2 ∧
      (close_connection (close_connection w)).cb_unregistered_count
        = w.cb_unregistered_count + 2) := by
  rcases w with ⟨sn, pn, ip, a, b, c⟩
  cases sn <;> cases pn <;> simp [close_connection]

/-- Witness for C4's amended statement: the NULL-guard no-op and the double
release on a live record. -/
theorem claim_C4_teardown_amended_witness :
    close_connection ⟨true, false, true, 0, 0, 0⟩ = ⟨true, false, true, 0, 0, 0⟩ ∧
    (close_connection (close_connection ⟨false, false, true, 0, 0, 0⟩)).free_count
      = 0 + 2 :=
  ⟨(claim_C4_teardown_amended ⟨true, false, true, 0, 0, 0⟩).1 (Or.inl rfl),
   ((claim_C4_teardown_amended ⟨false, false, true, 0, 0, 0⟩).2 rfl rfl).2.2.1⟩

/-- The fields of `conn_state_t` initialized by `webserver_accept`
(`pcb` is bound implicitly by occupancy; `callbacks_bound` records the four
`tcp_arg`/`tcp_recv`/`tcp_sent`/`tcp_err` registrations). -/
structure conn_rec where
  timeout : Int
  response_sent : Bool
  remaining_len : Nat
  callbacks_bound : Bool
deriving DecidableEq, Repr

/-- The connection state `webserver_accept` builds for a new client:
idle-deadline `TCP_TIMEOUT_MS` from now, `response_sent = false`, empty
cursor, callbacks bound. -/
def fresh_conn (now : Int) : conn_rec :=
  { timeout := make_timeout_time_ms now TCP_TIMEOUT_MS
    response_sent := false
    remaining_len := 0
    callbacks_bound := true }

/-- The free-slot scan of `webserver_accept` (`for i in 0..MAX_CONNECTIONS`,
first slot with `active_connections[i] == NULL`). -/
def firstFree : List (Option conn_rec) → Option Nat
  | [] => none
  | none :: _ => some 0
  | some _ :: rest => (firstFree rest).map (· + 1)

inductive accept_result where
  | accepted (slot : Nat)
  | rejected
deriving DecidableEq, Repr

/-- `webserver_accept` from the source: if no pool slot is free the new pcb
is closed and the accept refused (`ERR_MEM`) with no allocation and no pool
mutation; otherwise a state is allocated, initialized, stored in the first
free slot, and the callbacks are bound to it. -/
def webserver_accept (now : Int) (pool : List (Option conn_rec)) :
    List (Option conn_rec) × accept_result :=
  match firstFree pool with
  | none => (pool, .rejected)
  | some i => (pool.set i (some (fresh_conn now)), .accepted i)

lemma firstFree_none_of_full (pool : List (Option conn_rec))
    (h : ∀ s ∈ pool, s ≠ none) : firstFree pool = none := by
  induction pool with
  | nil => rfl
  | cons s rest ih =>
    cases s with
    | none => exact absurd rfl (h none (List.mem_cons_self _ _))
    | some c =>
      have := ih (fun s hs => h s (List.mem_cons_of_mem _ hs))
      simp [firstFree, this]

lemma firstFree_some_spec (pool : List (Option conn_rec)) :
    ∀ i, firstFree pool = some i → i < pool.length ∧ pool[i]? = some none := by
  induction pool with
  | nil => intro i h; exact absurd h (by simp [firstFree])
  | cons s rest ih =>
    intro i h
    cases s with
    | none =>
      simp only [firstFree, Option.some.injEq] at h
      subst h
      simp
    | some c =>
      simp only [firstFree, Option.map_eq_some'] at h
      obtain ⟨j, hj, hij⟩ := h
      subst hij
      obtain ⟨hlt, hget⟩ := ih j hj
      exact ⟨by simpa using Nat.succ_lt_succ hlt, by simpa using hget⟩

/-- **C7.** When all pool slots (`MAX_CONNECTIONS = 4`, the model states
this for any pool) are occupied, an additional connection attempt is
refused with no pool mutation, leaving existing connections untouched; when
a free slot exists, the first free slot is reserved with a fresh state
whose idle-deadline is `TCP_TIMEOUT_MS` (10 s) from now and whose callbacks
are bound, and every other slot is unchanged. -/
theorem claim_C7_accept (now : Int) (pool : List (Option conn_rec)) :
    ((∀ s ∈ pool, s ≠ none) → webserver_accept now pool = (pool, .rejected)) ∧
    (∀ i, firstFree pool = some i →
      i < pool.length ∧ pool[i]? = some none ∧
      webserver_accept now pool
        = (pool.set i (some (fresh_conn now)), .accepted i) ∧
      (pool.set i (some (fresh_conn now)))[i]? = some (some (fresh_conn now)) ∧
      (∀ j, j ≠ i → (pool.set i (some (fresh_conn now)))[j]? = pool[j]?) ∧
      (fresh_conn now).timeout = now + TCP_TIMEOUT_MS * 1000 ∧
      (fresh_conn now).callbacks_bound = true ∧
      (fresh_conn now).response_sent = false) := by
  constructor
  · intro hfull
    unfold webserver_accept
    rw [firstFree_none_of_full pool hfull]
  · intro i hi
    obtain ⟨hlt, hget⟩ := firstFree_some_spec pool i hi
    refine ⟨hlt, hget, ?_, ?_, ?_, rfl, rfl, rfl⟩
    · unfold webserver_accept
      rw [hi]
    · exact List.getElem?_set_self (by simpa using hlt)
    · intro j hj
      exact List.getElem?_set_ne (fun hij => hj hij.symm)

/-- Witness for C7: a full 4-slot pool refuses; a pool with slot 1 free
accepts into slot 1. -/
theorem claim_C7_accept_witness :
    (∀ s ∈ [some (fresh_conn 0), some (fresh_conn 0), some (fresh_conn 0),
            some (fresh_conn 0)], s ≠ none) ∧
    webserver_accept 0 [some (fresh_conn 0), some (fresh_conn 0),
        some (fresh_conn 0), some (fresh_conn 0)]
      = ([some (fresh_conn 0), some (fresh_conn 0), some (fresh_conn 0),
          some (fresh_conn 0)], .rejected) ∧
    firstFree [some (fresh_conn 0), none, none, none] = some 1 ∧
    webserver_accept 7 [some (fresh_conn 0), none, none, none]
      = ([some (fresh_conn 0), some (fresh_conn 7), none, none], .accepted 1) := by
  refine ⟨by decide, ?_, by decide, ?_⟩
  · exact (claim_C7_accept 0 _).1 (by decide)
  · exact ((claim_C7_accept 7 [some (fresh_conn 0), none, none, none]).2 1
      (by decide)).2.2.1

/-- `sensor_data_t` from the source (second revision): the three displayed
and alert-checked readings. -/
structure sensor_data_t where
  temp_aht20 : ℚ
  hum_aht20 : ℚ
  press_bmp280 : ℚ
deriving DecidableEq, Repr

/-- The out-of-limits test of `tarefa_alerta` (any of the three readings
outside its [min,max] band). -/
def out_of_limits (d : sensor_data_t) (c : config_limits_t) : Bool :=
  decide (d.temp_aht20 < c.temp_min) || decide (d.temp_aht20 > c.temp_max) ||
  decide (d.hum_aht20 < c.hum_min) || decide (d.hum_aht20 > c.hum_max) ||
  decide (d.press_bmp280 < c.press_min) || decide (d.press_bmp280 > c.press_max)

/-- Observable outcome of one `tarefa_alerta` cycle: the new `alert_active`
flag, whether the three-pulse tone pattern was played (`emitir_alerta`), and
the LED written by `atualizar_led_status`. -/
structure alert_cycle_out where
  alert_active : Bool
  tone_emitted : Bool
  led_red : Bool
  led_green : Bool
  led_blue : Bool
deriving DecidableEq, Repr

/-- One iteration of `tarefa_alerta`'s loop: `alerta` starts at `false` and
is recomputed only if both 100 ms mutex takes succeed (`locks_ok`); the tone
plays on a transition into alert; `alert_active` is assigned
unconditionally and the LED follows it (`atualizar_led_status`, blue
indicating lost link when not in alert). -/
def tarefa_alerta_cycle (locks_ok : Bool) (d : sensor_data_t)
    (c : config_limits_t) (prev_alert wifi : Bool) : alert_cycle_out :=
  let alerta := locks_ok && out_of_limits d c
  { alert_active := alerta
    tone_emitted := (prev_alert != alerta) && alerta
    led_red := alerta
    led_green := !alerta
    led_blue := !alerta && !wifi }

/-- **C8 (counterexample).** A cycle whose lock acquisition times out while
the system is in ALERT does not leave the alert state and LED unchanged:
`alerta` keeps its initializer `false`, so `alert_active` is cleared and
the LED switches from red to green; nothing is logged about the timeout. -/
theorem claim_C8_counterexample :
    ¬ ((tarefa_alerta_cycle false ⟨20, 50, 1000⟩ config_default true true).alert_active
          = true ∧
       (tarefa_alerta_cycle false ⟨20, 50, 1000⟩ config_default true true).led_red
          = true) := by
  decide

/-- **C8 (amended).** When the 100 ms lock acquisition times out, the
evaluation is skipped but the cycle behaves as if the reading were
in-limits: the alert flag is set to `false` (clearing any active alert),
the LED shows the NORMAL color (green, blue qualifying lost link), and no
tone is emitted; the timeout is not fatal (the loop continues) but it is
not logged and the alert state is not preserved. -/
theorem claim_C8_alert_timeout_amended (d : sensor_data_t) (c : config_limits_t)
    (prev_alert wifi : Bool) :
    tarefa_alerta_cycle false d c prev_alert wifi
      = { alert_active := false, tone_emitted := false,
          led_red := false, led_green := true, led_blue := !wifi } := by
  simp [tarefa_alerta_cycle]

/-- C `strstr(hay, needle) != NULL`: the needle occurs as a contiguous
substring of the haystack. -/
def strstr_contains (needle : List Char) : List Char → Bool
  | [] => needle.isPrefixOf []
  | c :: rest => needle.isPrefixOf (c :: rest) || strstr_contains needle rest

/-- The five dispatch outcomes of `handle_http_request`. -/
inductive Route where
  | badRequest | json | config | cfg | page | notFound
deriving DecidableEq, Repr

/-- The route dispatch of `handle_http_request`: an empty request is
answered 400; otherwise the request text is probed with `strstr` in the
source's order — `GET /json`, `GET /config`, `POST /cfg`, then
`GET /` or `GET /index.html` (the dashboard), else 404. -/
def route_dispatch (req : List Char) : Route :=
  if req.isEmpty then .badRequest
  else if strstr_contains ("GET /json".toList) req then .json
  else if strstr_contains ("GET /config".toList) req then .config
  else if strstr_contains ("POST /cfg".toList) req then .cfg
  else if strstr_contains ("GET /".toList) req
       || strstr_contains ("GET /index.html".toList) req then .page
  else .notFound

/-- **C6 (counterexample).** `GET /foo` — a GET for a path outside the
defined routes — is answered with the dashboard page, not 404: the
catch-all test `strstr(req, "GET /")` matches every GET request. -/
theorem claim_C6_counterexample :
    route_dispatch ("GET /foo HTTP/1.1".toList) = Route.page ∧
    Route.page ≠ Route.notFound := by
  exact ⟨by decide, by decide⟩

/-- **C6 (amended).** Matching is by substring: a request is answered 404
exactly when it is non-empty and contains none of `GET /json`,
`GET /config`, `POST /cfg`, `GET /` (and `GET /index.html`); consequently
any request containing `GET /` — in particular every GET for an unknown
path — is never answered 404 but with the dashboard. -/
theorem claim_C6_routing_amended (req : List Char) :
    (route_dispatch req = Route.notFound ↔
      (req ≠ [] ∧
       strstr_contains ("GET /json".toList) req = false ∧
       strstr_contains ("GET /config".toList) req = false ∧
       strstr_contains ("POST /cfg".toList) req = false ∧
       strstr_contains ("GET /".toList) req = false ∧
       strstr_contains ("GET /index.html".toList) req = false)) ∧
    (strstr_contains ("GET /".toList) req = true →
      route_dispatch req ≠ Route.notFound) := by
  refine ⟨?_, ?_⟩
  · by_cases h0 : req.isEmpty <;>
    by_cases h1 : strstr_contains ("GET /json".toList) req <;>
    by_cases h2 : strstr_contains ("GET /config".toList) req <;>
    by_cases h3 : strstr_contains ("POST /cfg".toList) req <;>
    by_cases h4 : strstr_contains ("GET /".toList) req <;>
    by_cases h5 : strstr_contains ("GET /index.html".toList) req <;>
      simp_all [route_dispatch, List.isEmpty_iff]
  · intro h4
    by_cases h0 : req.isEmpty <;>
    by_cases h1 : strstr_contains ("GET /json".toList) req <;>
    by_cases h2 : strstr_contains ("GET /config".toList) req <;>
    by_cases h3 : strstr_contains ("POST /cfg".toList) req <;>
      simp_all [route_dispatch, List.isEmpty_iff]

/-- Witness for C6's amended statement at `GET /foo`. -/
theorem claim_C6_routing_amended_witness :
    strstr_contains ("GET /".toList) ("GET /foo HTTP/1.1".toList) = true ∧
    route_dispatch ("GET /foo HTTP/1.1".toList) ≠ Route.notFound := by
  exact ⟨by decide,
    (claim_C6_routing_amended ("GET /foo HTTP/1.1".toList)).2 (by decide)⟩

/-- One HTTP response as assembled by the source: its status code, whether
the `%s` CORS block (`Access-Control-Allow-…`) is spliced into the header
format string, the number printed after `Content-Length:` in that format
string, and the body handed to `send_http_response`.  (For the fixed
responses the body text is inlined after the blank line of the literal and
the `body` argument is NULL; the model records that trailing text as the
body.) -/
structure http_send where
  status_code : Nat
  has_cors : Bool
  declared_len : Nat
  body : String
deriving DecidableEq, Repr

/-- The empty-request 400 of `handle_http_request` (fixed literal, no CORS,
`Content-Length: 11`, trailing body `Bad Request`). -/
def resp_empty_request : http_send :=
  { status_code := 400, has_cors := false, declared_len := 11, body := "Bad Request" }

/-- The oversize-request 413 of `webserver_recv` (fixed literal, no CORS,
`Content-Length: 16`, trailing body `Payload Too Large`). -/
def resp_413 : http_send :=
  { status_code := 413, has_cors := false, declared_len := 16,
    body := "Payload Too Large" }

/-- The allocation-failure 500 of `webserver_recv` (fixed literal, no CORS,
`Content-Length: 22`, trailing body `Internal Server Error`). -/
def resp_recv_500 : http_send :=
  { status_code := 500, has_cors := false, declared_len := 22,
    body := "Internal Server Error" }

/-- The 404 branch of `handle_http_request` (CORS spliced,
`Content-Length: 12`, body `404 Not Found`). -/
def resp_404 : http_send :=
  { status_code := 404, has_cors := true, declared_len := 12,
    body := "404 Not Found" }

/-- The missing-body 400 of the `POST /cfg` branch (CORS spliced,
`Content-Length: 45`, body the Corpo-ausente JSON object). -/
def resp_cfg_missing_body : http_send :=
  { status_code := 400, has_cors := true, declared_len := 45,
    body := "\x7b\"status\":\"error\",\"message\":\"Corpo ausente\"\x7d" }

/-- The `strdup`-failure 500 of the `POST /cfg` branch (CORS spliced,
`Content-Length: 48`, body the Erro-interno JSON object). -/
def resp_cfg_alloc_500 : http_send :=
  { status_code := 500, has_cors := true, declared_len := 48,
    body := "\x7b\"status\":\"error\",\"message\":\"Erro interno\"\x7d" }

/-- The `GET /json` 200 (CORS spliced, `Content-Length: %zu` computed as
`strlen(json)` of the body actually sent). -/
def resp_json (b : String) : http_send :=
  { status_code := 200, has_cors := true, declared_len := b.length, body := b }

/-- The `GET /config` 200 (CORS spliced, length computed from the body). -/
def resp_config (b : String) : http_send :=
  { status_code := 200, has_cors := true, declared_len := b.length, body := b }

/-- The `POST /cfg` result response (status line 200 or 400 by `updated`,
CORS spliced, length computed as `strlen(response)`). -/
def resp_cfg_result (updated : Bool) (b : String) : http_send :=
  { status_code := if updated then 200 else 400, has_cors := true,
    declared_len := b.length, body := b }

/-- The dashboard 200 (CORS spliced, length computed as
`strlen(html_page)`). -/
def resp_dashboard (page : String) : http_send :=
  { status_code := 200, has_cors := true, declared_len := page.length, body := page }

/-- C9's per-response property: permissive cross-origin headers present and
declared Content-Length equal to the byte length of the body sent. -/
def cors_and_length_ok (r : http_send) : Prop :=
  r.has_cors = true ∧ r.declared_len = r.body.length

instance (r : http_send) : Decidable (cors_and_length_ok r) := by
  unfold cors_and_length_ok; infer_instance

/-- **C9 (counterexample).** The too-large (413) response violates both
halves of the claim: it carries no cross-origin headers and declares
`Content-Length: 16` for its 17-byte body `Payload Too Large`. -/
theorem claim_C9_counterexample :
    ¬ cors_and_length_ok resp_413 ∧
    resp_413.has_cors = false ∧ resp_413.declared_len = 16 ∧
    resp_413.body.length = 17 := by
  refine ⟨by decide, rfl, rfl, by decide⟩

/-- **C9 (amended).** The route responses built through the handler's
format strings (`GET /json`, `GET /config`, the `POST /cfg` result, the
dashboard) carry the CORS block and a Content-Length computed from the body
actually sent; the 404 also carries CORS but declares 12 bytes for its
13-byte body; the empty-request 400 declares the correct length but has no
CORS; and the 413, the receive-path 500, the `POST /cfg` missing-body 400
and the `POST /cfg` allocation-failure 500 declare 16/22/45/48 bytes for
bodies of 17/21/44/43 bytes respectively (the first two also lacking CORS).
-/
theorem claim_C9_headers_amended :
    (∀ b : String, cors_and_length_ok (resp_json b)) ∧
    (∀ b : String, cors_and_length_ok (resp_config b)) ∧
    (∀ (updated : Bool) (b : String), cors_and_length_ok (resp_cfg_result updated b) ∧
      (resp_cfg_result updated b).status_code = if updated then 200 else 400) ∧
    (∀ p : String, cors_and_length_ok (resp_dashboard p)) ∧
    (resp_404.has_cors = true ∧ resp_404.declared_len = 12 ∧
      resp_404.body.length = 13) ∧
    (resp_empty_request.has_cors = false ∧
      resp_empty_request.declared_len = resp_empty_request.body.length) ∧
    (resp_413.has_cors = false ∧ resp_413.declared_len = 16 ∧
      resp_413.body.length = 17) ∧
    (resp_recv_500.has_cors = false ∧ resp_recv_500.declared_len = 22 ∧
      resp_recv_500.body.length = 21) ∧
    (resp_cfg_missing_body.has_cors = true ∧
      resp_cfg_missing_body.declared_len = 45 ∧
      resp_cfg_missing_body.body.length = 44) ∧
    (resp_cfg_alloc_500.has_cors = true ∧ resp_cfg_alloc_500.declared_len = 48 ∧
      resp_cfg_alloc_500.body.length = 43) := by
  refine ⟨fun b => ⟨rfl, rfl⟩, fun b => ⟨rfl, rfl⟩,
    fun updated b => ⟨⟨rfl, rfl⟩, rfl⟩, fun p => ⟨rfl, rfl⟩,
    ⟨rfl, rfl, by decide⟩, ⟨rfl, by decide⟩, ⟨rfl, rfl, by decide⟩,
    ⟨rfl, rfl, by decide⟩, ⟨rfl, rfl, by decide⟩, ⟨rfl, rfl, by decide⟩⟩

end WeatherStation
